import Mathlib

/-!
Verification of the request-translation and parameter-normalization layer of the
IntakeQ MCP server (handlers for appointments, clients, invoices, notes and
questionnaires, the tool-call dispatcher `route_tool_call`, the response
processing of the upstream client code, and the HTTP create-appointment route).

The embedding models Python dictionaries as association lists over a `PyVal`
value type, one upstream HTTP call as a `Request`, and the per-operation
response-handling code as a `RespPolicy` interpreted by `processResponse`.
A handler invocation returns `Except PyErr (Request × RespPolicy)`: the
`Except.error` outcome models an exception raised before any network call is
attempted, and `Except.ok` carries the single outgoing request together with
the operation's response handling.
-/

namespace IntakeQVerify

/-- A Python/JSON value as it appears in argument bags, query parameters,
headers and JSON bodies: NoneType, bool, int, str, or a JSON object
(a dict with string keys). -/
inductive PyVal where
  | none
  | bool (b : Bool)
  | int (n : Int)
  | str (s : String)
  | obj (kvs : List (String × PyVal))

/-- A Python dict with string keys, as an insertion-ordered association list. -/
abbrev Bag := List (String × PyVal)

/-- Python truthiness of a value: `bool(v)`. `None`, `False`, `0`, the empty
string and the empty dict are falsy; everything else is truthy. -/
def PyVal.truthy : PyVal → Bool
  | PyVal.none => false
  | PyVal.bool b => b
  | PyVal.int n => n != 0
  | PyVal.str s => s != ""
  | PyVal.obj kvs => !kvs.isEmpty

/-- ASCII lowercasing, modelling Python `str.lower()` on the ASCII strings the
handlers pass to it (the stringified boolean flags). -/
def strLower (s : String) : String := String.mk (s.data.map Char.toLower)

/-- Python `str(v)` for the values the handlers stringify. `str()` is applied
by the handlers only to the scalar filter flags (`deletedOnly`,
`includeProfile`, `all`), so the dict rendering is abstracted to a marker. -/
def pyStr : PyVal → String
  | PyVal.none => "None"
  | PyVal.bool true => "True"
  | PyVal.bool false => "False"
  | PyVal.int n => toString n
  | PyVal.str s => s
  | PyVal.obj kvs => "dict:" ++ toString kvs.length

/-- The exception kinds raised by the source: `ValueError(msg)` from the
validation code, `KeyError(key)` from a required dictionary subscript in the
dispatcher, and `Exception(f"API Error: {status} - {body}")` raised by every
handler on a non-success upstream status. -/
inductive PyErr where
  | valueError (msg : String)
  | keyError (key : String)
  | apiError (status : Nat) (body : String)

/-- `str(e)` of a raised exception. A Python `KeyError` renders its key with
surrounding single quotes, built here from the character code 39. -/
def PyErr.message : PyErr → String
  | PyErr.valueError m => m
  | PyErr.keyError k =>
      String.singleton (Char.ofNat 39) ++ k ++ String.singleton (Char.ofNat 39)
  | PyErr.apiError s b => "API Error: " ++ toString s ++ " - " ++ b

/-- `d.get(k)`: the value at key `k`, or Python `None` when the key is absent. -/
def bagGetd (b : Bag) (k : String) : PyVal := (List.lookup k b).getD PyVal.none

/-- `k in d`: key membership in the dict. -/
def bagHas (b : Bag) (k : String) : Bool := (List.lookup k b).isSome

/-- `d.get(k, default)`: the value at key `k`, or `default` when the key is
absent. -/
def bagGetDef (b : Bag) (k : String) (dflt : PyVal) : PyVal :=
  (List.lookup k b).getD dflt

/-- `d[k]`: the value at key `k`, raising `KeyError(k)` when the key is
absent. -/
def bagIndex (b : Bag) (k : String) : Except PyErr PyVal :=
  match List.lookup k b with
  | some v => Except.ok v
  | Option.none => Except.error (PyErr.keyError k)

/-- Upstream HTTP verbs used by the handlers. -/
inductive Method where
  | get
  | post
  | put
  | delete
deriving DecidableEq

/-- One outgoing upstream HTTP request: verb, full URL, headers, query
parameters (insertion-ordered, as passed to the HTTP client) and optional
JSON body. -/
structure Request where
  method : Method
  url : String
  headers : List (String × PyVal)
  query : List (String × PyVal)
  body : Option PyVal

/-- The per-operation response-handling code, as written in each handler:
decode JSON on 200; decode JSON on 200 or 201 (appointment create); return
raw bytes on 200 (the PDF downloads); or return a fixed synthesized value on
200 (appointment cancel, client addTag and removeTag). Every other status
raises the API-error exception. -/
inductive RespPolicy where
  | json200
  | json200or201
  | bytes200
  | synth200 (v : PyVal)

/-- One upstream HTTP response: status code, the JSON decoding of the body,
the body text, and the raw body bytes. -/
structure Response where
  status : Nat
  jsonBody : PyVal
  textBody : String
  rawBody : List Nat

/-- A handler's successful return value: a JSON value or raw bytes. -/
inductive HVal where
  | json (v : PyVal)
  | bytes (bs : List Nat)

/-- Interprets a handler's response-handling code on one upstream response. -/
def processResponse : RespPolicy → Response → Except PyErr HVal
  | RespPolicy.json200, r =>
      if r.status == 200 then Except.ok (HVal.json r.jsonBody)
      else Except.error (PyErr.apiError r.status r.textBody)
  | RespPolicy.json200or201, r =>
      if r.status == 200 || r.status == 201 then Except.ok (HVal.json r.jsonBody)
      else Except.error (PyErr.apiError r.status r.textBody)
  | RespPolicy.bytes200, r =>
      if r.status == 200 then Except.ok (HVal.bytes r.rawBody)
      else Except.error (PyErr.apiError r.status r.textBody)
  | RespPolicy.synth200 v, r =>
      if r.status == 200 then Except.ok (HVal.json v)
      else Except.error (PyErr.apiError r.status r.textBody)

/-- Runs a handler invocation against one upstream response: a validation
failure surfaces unchanged with no network call; otherwise the single request
is issued and the response handled per the operation's policy. -/
def runCall (h : Except PyErr (Request × RespPolicy)) (resp : Response) :
    Except PyErr HVal :=
  match h with
  | Except.error e => Except.error e
  | Except.ok (_, pol) => processResponse pol resp

/-- One line of a handler's query-parameter building chain: `plain k`
transliterates `if params.get(k): query_params[k] = params[k]`, and
`lowered k` transliterates
`if params.get(k): query_params[k] = str(params[k]).lower()`. -/
inductive QSpec where
  | plain (k : String)
  | lowered (k : String)
deriving DecidableEq

/-- The parameter name a `QSpec` line writes. -/
def specKey : QSpec → String
  | QSpec.plain k => k
  | QSpec.lowered k => k

/-- The parameter names a query-building chain can write. -/
def specKeys (l : List QSpec) : List String := l.map specKey

/-- Runs a query-building chain over the argument bag, in source order. -/
def buildQuery (params : Bag) : List QSpec → Bag
  | [] => []
  | QSpec.plain k :: rest =>
      (if (bagGetd params k).truthy then [(k, bagGetd params k)] else [])
        ++ buildQuery params rest
  | QSpec.lowered k :: rest =>
      (if (bagGetd params k).truthy
        then [(k, PyVal.str (strLower (pyStr (bagGetd params k))))] else [])
        ++ buildQuery params rest

/-- The query-building chain of `AppointmentHandler.get_appointments`. -/
def appointmentsSpec : List QSpec :=
  [QSpec.plain "client", QSpec.plain "startDate", QSpec.plain "endDate",
   QSpec.plain "status", QSpec.plain "practitionerEmail", QSpec.plain "page",
   QSpec.plain "updatedSince", QSpec.lowered "deletedOnly"]

/-- The query-building chain of `ClientHandler.get_clients`. -/
def clientsSpec : List QSpec :=
  [QSpec.plain "search", QSpec.plain "page", QSpec.lowered "includeProfile",
   QSpec.plain "dateCreatedStart", QSpec.plain "dateCreatedEnd",
   QSpec.plain "dateUpdatedStart", QSpec.plain "dateUpdatedEnd",
   QSpec.plain "externalClientId", QSpec.lowered "deletedOnly"]

/-- The query-building chain of `InvoiceHandler.get_invoices`. -/
def invoicesSpec : List QSpec :=
  [QSpec.plain "clientId", QSpec.plain "startDate", QSpec.plain "endDate",
   QSpec.plain "status", QSpec.plain "practitionerEmail", QSpec.plain "number",
   QSpec.plain "page", QSpec.plain "lastUpdatedStartDate",
   QSpec.plain "lastUpdatedEndDate"]

/-- The query-building chain of `NotesHandler.get_notes_summary`. -/
def notesSpec : List QSpec :=
  [QSpec.plain "client", QSpec.plain "clientId", QSpec.plain "status",
   QSpec.plain "startDate", QSpec.plain "endDate", QSpec.plain "page",
   QSpec.plain "updatedSince", QSpec.lowered "deletedOnly"]

/-- The query-building chain of `QuestionnaireHandler.get_intakes_summary`. -/
def intakesSpec : List QSpec :=
  [QSpec.plain "client", QSpec.plain "startDate", QSpec.plain "endDate",
   QSpec.plain "page", QSpec.lowered "all", QSpec.plain "clientId",
   QSpec.plain "externalClientId", QSpec.plain "updatedSince",
   QSpec.lowered "deletedOnly"]

namespace AppointmentHandler

/-- GET /appointments with the optional filters of handlers/appointments.py. -/
def get_appointments (base_url : String) (api_key : PyVal) (params : Bag) :
    Except PyErr (Request × RespPolicy) :=
  Except.ok
    ({ method := Method.get, url := base_url ++ "/appointments",
       headers := [("X-Auth-Key", api_key)],
       query := buildQuery params appointmentsSpec,
       body := Option.none }, RespPolicy.json200)

/-- GET /appointments/{id}. -/
def get_appointment (base_url : String) (api_key : PyVal)
    (appointment_id : PyVal) : Except PyErr (Request × RespPolicy) :=
  Except.ok
    ({ method := Method.get,
       url := base_url ++ "/appointments/" ++ pyStr appointment_id,
       headers := [("X-Auth-Key", api_key)], query := [],
       body := Option.none }, RespPolicy.json200)

/-- The required-field list of `create_appointment`, in source order. -/
def required_fields : List String :=
  ["PractitionerId", "ClientId", "ServiceId", "LocationId", "Status",
   "UtcDateTime"]

/-- POST /appointments. The validation loop raises at the first field whose
KEY is not in the dict (`if field not in appointment_data`); the whole dict is
then sent as the JSON body. Accepts statuses 200 and 201. -/
def create_appointment (base_url : String) (api_key : PyVal)
    (appointment_data : Bag) : Except PyErr (Request × RespPolicy) :=
  match required_fields.find? (fun f => !(bagHas appointment_data f)) with
  | some f => Except.error (PyErr.valueError ("Missing required field: " ++ f))
  | Option.none =>
      Except.ok
        ({ method := Method.post, url := base_url ++ "/appointments",
           headers := [("X-Auth-Key", api_key),
                       ("Content-Type", PyVal.str "application/json")],
           query := [], body := some (PyVal.obj appointment_data) },
         RespPolicy.json200or201)

/-- PUT /appointments. Requires the keys Id and UtcDateTime; the error message
names both fields whichever is missing. -/
def update_appointment (base_url : String) (api_key : PyVal)
    (appointment_data : Bag) : Except PyErr (Request × RespPolicy) :=
  if !(bagHas appointment_data "Id") || !(bagHas appointment_data "UtcDateTime")
  then Except.error
    (PyErr.valueError "Missing required fields: Id and UtcDateTime")
  else
    Except.ok
      ({ method := Method.put, url := base_url ++ "/appointments",
         headers := [("X-Auth-Key", api_key),
                     ("Content-Type", PyVal.str "application/json")],
         query := [], body := some (PyVal.obj appointment_data) },
       RespPolicy.json200)

/-- POST /appointments/cancellation. The Reason key is added only when the
reason is truthy; on 200 the handler returns a fixed synthesized value, not
the upstream payload. -/
def cancel_appointment (base_url : String) (api_key : PyVal)
    (appointment_id reason : PyVal) : Except PyErr (Request × RespPolicy) :=
  Except.ok
    ({ method := Method.post, url := base_url ++ "/appointments/cancellation",
       headers := [("X-Auth-Key", api_key),
                   ("Content-Type", PyVal.str "application/json")],
       query := [],
       body := some (PyVal.obj ([("AppointmentId", appointment_id)] ++
         (if reason.truthy then [("Reason", reason)] else []))) },
     RespPolicy.synth200
       (PyVal.obj [("success", PyVal.bool true),
                   ("message", PyVal.str "Appointment canceled successfully")]))

/-- GET /appointments/settings. -/
def get_booking_settings (base_url : String) (api_key : PyVal) :
    Except PyErr (Request × RespPolicy) :=
  Except.ok
    ({ method := Method.get, url := base_url ++ "/appointments/settings",
       headers := [("X-Auth-Key", api_key)], query := [],
       body := Option.none }, RespPolicy.json200)

end AppointmentHandler

namespace ClientHandler

/-- GET /clients with the optional filters of handlers/clients.py. -/
def get_clients (base_url : String) (api_key : PyVal) (params : Bag) :
    Except PyErr (Request × RespPolicy) :=
  Except.ok
    ({ method := Method.get, url := base_url ++ "/clients",
       headers := [("X-Auth-Key", api_key)],
       query := buildQuery params clientsSpec,
       body := Option.none }, RespPolicy.json200)

/-- POST /clients: the client object is sent verbatim as the JSON body. The
success check accepts ONLY status 200 (no 201 branch in the source). -/
def create_or_update_client (base_url : String) (api_key : PyVal)
    (client_data : PyVal) : Except PyErr (Request × RespPolicy) :=
  Except.ok
    ({ method := Method.post, url := base_url ++ "/clients",
       headers := [("X-Auth-Key", api_key),
                   ("Content-Type", PyVal.str "application/json")],
       query := [], body := some client_data }, RespPolicy.json200)

/-- POST /clientTags; on 200 returns a fixed synthesized value, not the
upstream payload. -/
def add_client_tag (base_url : String) (api_key : PyVal)
    (client_id tag : PyVal) : Except PyErr (Request × RespPolicy) :=
  Except.ok
    ({ method := Method.post, url := base_url ++ "/clientTags",
       headers := [("X-Auth-Key", api_key),
                   ("Content-Type", PyVal.str "application/json")],
       query := [],
       body := some (PyVal.obj [("ClientId", client_id), ("Tag", tag)]) },
     RespPolicy.synth200
       (PyVal.obj [("success", PyVal.bool true),
                   ("message", PyVal.str "Tag added successfully")]))

/-- DELETE /clientTags with query parameters; on 200 returns a fixed
synthesized value, not the upstream payload. -/
def remove_client_tag (base_url : String) (api_key : PyVal)
    (client_id tag : PyVal) : Except PyErr (Request × RespPolicy) :=
  Except.ok
    ({ method := Method.delete, url := base_url ++ "/clientTags",
       headers := [("X-Auth-Key", api_key)],
       query := [("clientId", client_id), ("tag", tag)],
       body := Option.none },
     RespPolicy.synth200
       (PyVal.obj [("success", PyVal.bool true),
                   ("message", PyVal.str "Tag removed successfully")]))

/-- GET /client/{id}/diagnoses. -/
def get_client_diagnoses (base_url : String) (api_key : PyVal)
    (client_id : PyVal) : Except PyErr (Request × RespPolicy) :=
  Except.ok
    ({ method := Method.get,
       url := base_url ++ "/client/" ++ pyStr client_id ++ "/diagnoses",
       headers := [("X-Auth-Key", api_key)], query := [],
       body := Option.none }, RespPolicy.json200)

end ClientHandler

namespace InvoiceHandler

/-- GET /invoices with the optional filters of handlers/invoices.py. -/
def get_invoices (base_url : String) (api_key : PyVal) (params : Bag) :
    Except PyErr (Request × RespPolicy) :=
  Except.ok
    ({ method := Method.get, url := base_url ++ "/invoices",
       headers := [("X-Auth-Key", api_key)],
       query := buildQuery params invoicesSpec,
       body := Option.none }, RespPolicy.json200)

/-- GET /invoices/{id}. -/
def get_invoice (base_url : String) (api_key : PyVal) (invoice_id : PyVal) :
    Except PyErr (Request × RespPolicy) :=
  Except.ok
    ({ method := Method.get,
       url := base_url ++ "/invoices/" ++ pyStr invoice_id,
       headers := [("X-Auth-Key", api_key)], query := [],
       body := Option.none }, RespPolicy.json200)

end InvoiceHandler

namespace NotesHandler

/-- GET /notes/summary with the optional filters of handlers/notes.py. -/
def get_notes_summary (base_url : String) (api_key : PyVal) (params : Bag) :
    Except PyErr (Request × RespPolicy) :=
  Except.ok
    ({ method := Method.get, url := base_url ++ "/notes/summary",
       headers := [("X-Auth-Key", api_key)],
       query := buildQuery params notesSpec,
       body := Option.none }, RespPolicy.json200)

/-- GET /notes/{id}. -/
def get_note (base_url : String) (api_key : PyVal) (note_id : PyVal) :
    Except PyErr (Request × RespPolicy) :=
  Except.ok
    ({ method := Method.get, url := base_url ++ "/notes/" ++ pyStr note_id,
       headers := [("X-Auth-Key", api_key)], query := [],
       body := Option.none }, RespPolicy.json200)

/-- GET /notes/{id}/pdf, returning the raw response bytes on 200. -/
def get_note_pdf (base_url : String) (api_key : PyVal) (note_id : PyVal) :
    Except PyErr (Request × RespPolicy) :=
  Except.ok
    ({ method := Method.get,
       url := base_url ++ "/notes/" ++ pyStr note_id ++ "/pdf",
       headers := [("X-Auth-Key", api_key)], query := [],
       body := Option.none }, RespPolicy.bytes200)

end NotesHandler

namespace QuestionnaireHandler

/-- GET /intakes/summary with the optional filters of
handlers/questionnaires.py. -/
def get_intakes_summary (base_url : String) (api_key : PyVal) (params : Bag) :
    Except PyErr (Request × RespPolicy) :=
  Except.ok
    ({ method := Method.get, url := base_url ++ "/intakes/summary",
       headers := [("X-Auth-Key", api_key)],
       query := buildQuery params intakesSpec,
       body := Option.none }, RespPolicy.json200)

/-- GET /intakes/{id}. -/
def get_intake (base_url : String) (api_key : PyVal) (intake_id : PyVal) :
    Except PyErr (Request × RespPolicy) :=
  Except.ok
    ({ method := Method.get, url := base_url ++ "/intakes/" ++ pyStr intake_id,
       headers := [("X-Auth-Key", api_key)], query := [],
       body := Option.none }, RespPolicy.json200)

/-- POST /intakes/send: requires the KEY QuestionnaireId in the dict, then
sends the whole dict verbatim as the JSON body (no filtering of the other
keys). -/
def send_questionnaire (base_url : String) (api_key : PyVal)
    (questionnaire_data : Bag) : Except PyErr (Request × RespPolicy) :=
  if !(bagHas questionnaire_data "QuestionnaireId") then
    Except.error (PyErr.valueError "Missing required field: QuestionnaireId")
  else
    Except.ok
      ({ method := Method.post, url := base_url ++ "/intakes/send",
         headers := [("X-Auth-Key", api_key),
                     ("Content-Type", PyVal.str "application/json")],
         query := [], body := some (PyVal.obj questionnaire_data) },
       RespPolicy.json200)

/-- POST /intakes/resend: requires the KEY IntakeId, sends the dict
verbatim. -/
def resend_questionnaire (base_url : String) (api_key : PyVal)
    (resend_data : Bag) : Except PyErr (Request × RespPolicy) :=
  if !(bagHas resend_data "IntakeId") then
    Except.error (PyErr.valueError "Missing required field: IntakeId")
  else
    Except.ok
      ({ method := Method.post, url := base_url ++ "/intakes/resend",
         headers := [("X-Auth-Key", api_key),
                     ("Content-Type", PyVal.str "application/json")],
         query := [], body := some (PyVal.obj resend_data) },
       RespPolicy.json200)

/-- GET /questionnaires. -/
def get_questionnaire_templates (base_url : String) (api_key : PyVal) :
    Except PyErr (Request × RespPolicy) :=
  Except.ok
    ({ method := Method.get, url := base_url ++ "/questionnaires",
       headers := [("X-Auth-Key", api_key)], query := [],
       body := Option.none }, RespPolicy.json200)

/-- GET /practitioners. -/
def get_practitioners (base_url : String) (api_key : PyVal) :
    Except PyErr (Request × RespPolicy) :=
  Except.ok
    ({ method := Method.get, url := base_url ++ "/practitioners",
       headers := [("X-Auth-Key", api_key)], query := [],
       body := Option.none }, RespPolicy.json200)

/-- GET /intakes/{id}/pdf, returning the raw response bytes on 200. -/
def get_intake_pdf (base_url : String) (api_key : PyVal) (intake_id : PyVal) :
    Except PyErr (Request × RespPolicy) :=
  Except.ok
    ({ method := Method.get,
       url := base_url ++ "/intakes/" ++ pyStr intake_id ++ "/pdf",
       headers := [("X-Auth-Key", api_key)], query := [],
       body := Option.none }, RespPolicy.bytes200)

/-- POST /intakes: the intake object is sent verbatim as the JSON body. -/
def update_office_use_questions (base_url : String) (api_key : PyVal)
    (intake_data : Bag) : Except PyErr (Request × RespPolicy) :=
  Except.ok
    ({ method := Method.post, url := base_url ++ "/intakes",
       headers := [("X-Auth-Key", api_key),
                   ("Content-Type", PyVal.str "application/json")],
       query := [], body := some (PyVal.obj intake_data) },
     RespPolicy.json200)

end QuestionnaireHandler

/-- The fixed upstream base URL of src/server.py and src/web_server.py. -/
def base_url : String := "https://intakeq.com/api/v1"

/-- `IntakeQMCPServer.route_tool_call`: checks the credential first, then
routes the tool name through the if/elif chain, building the per-operation
arguments exactly as the source does. Dictionary subscripts on `arguments`
raise `KeyError` exactly where the source subscripts. -/
def route_tool_call (tool_name : String) (arguments : Bag) :
    Except PyErr (Request × RespPolicy) :=
  let api_key := bagGetd arguments "api_key"
  if api_key.truthy = false then
    Except.error (PyErr.valueError "API key is required")
  else if tool_name = "get_appointments" then
    AppointmentHandler.get_appointments base_url api_key arguments
  else if tool_name = "get_appointment" then do
    let aid ← bagIndex arguments "appointment_id"
    AppointmentHandler.get_appointment base_url api_key aid
  else if tool_name = "create_appointment" then do
    let pid ← bagIndex arguments "practitioner_id"
    let cid ← bagIndex arguments "client_id"
    let sid ← bagIndex arguments "service_id"
    let lid ← bagIndex arguments "location_id"
    let st ← bagIndex arguments "status"
    let udt ← bagIndex arguments "utc_datetime"
    AppointmentHandler.create_appointment base_url api_key
      [("PractitionerId", pid), ("ClientId", cid), ("ServiceId", sid),
       ("LocationId", lid), ("Status", st), ("UtcDateTime", udt),
       ("SendClientEmailNotification",
        bagGetDef arguments "send_email_notification" (PyVal.bool true)),
       ("ReminderType",
        bagGetDef arguments "reminder_type" (PyVal.str "Email"))]
  else if tool_name = "get_booking_settings" then
    AppointmentHandler.get_booking_settings base_url api_key
  else if tool_name = "get_clients" then
    ClientHandler.get_clients base_url api_key arguments
  else if tool_name = "create_client" then do
    let cd ← bagIndex arguments "client_data"
    ClientHandler.create_or_update_client base_url api_key cd
  else if tool_name = "get_invoices" then
    InvoiceHandler.get_invoices base_url api_key arguments
  else if tool_name = "get_invoice" then do
    let iid ← bagIndex arguments "invoice_id"
    InvoiceHandler.get_invoice base_url api_key iid
  else if tool_name = "get_notes" then
    NotesHandler.get_notes_summary base_url api_key arguments
  else if tool_name = "get_note" then do
    let nid ← bagIndex arguments "note_id"
    NotesHandler.get_note base_url api_key nid
  else if tool_name = "get_questionnaire_templates" then
    QuestionnaireHandler.get_questionnaire_templates base_url api_key
  else if tool_name = "send_questionnaire" then do
    let qid ← bagIndex arguments "questionnaire_id"
    QuestionnaireHandler.send_questionnaire base_url api_key
      [("QuestionnaireId", qid),
       ("ClientId", bagGetd arguments "client_id"),
       ("ClientName", bagGetd arguments "client_name"),
       ("ClientEmail", bagGetd arguments "client_email"),
       ("PractitionerId", bagGetd arguments "practitioner_id")]
  else
    Except.error (PyErr.valueError ("Unknown tool: " ++ tool_name))

/-- The tool names of `route_tool_call`'s if/elif chain, in source order. -/
def knownTools : List String :=
  ["get_appointments", "get_appointment", "create_appointment",
   "get_booking_settings", "get_clients", "create_client", "get_invoices",
   "get_invoice", "get_notes", "get_note", "get_questionnaire_templates",
   "send_questionnaire"]

/-- Routes a tool call and, when a request was issued, handles the given
upstream response; a failure raised before the network call passes through. -/
def dispatch_and_respond (tool_name : String) (arguments : Bag)
    (resp : Response) : Except PyErr HVal :=
  runCall (route_tool_call tool_name arguments) resp

/-- The reply `handle_call_tool` frames for the tool transport: the successful
value (serialized by `json.dumps`, left symbolic here) or the error text. -/
inductive ToolReply where
  | success (v : HVal)
  | failure (text : String)

/-- `handle_call_tool`: any exception from routing or from the upstream call
is caught and reframed as an error text embedding `str(e)`. -/
def handle_call_tool (name : String) (arguments : Bag) (resp : Response) :
    ToolReply :=
  match dispatch_and_respond name arguments resp with
  | Except.ok v => ToolReply.success v
  | Except.error e =>
      ToolReply.failure ("Error calling tool " ++ name ++ ": " ++ e.message)

/-- The HTTP route POST /appointments of src/web_server.py: forwards the
parsed JSON request body verbatim to `AppointmentHandler.create_appointment`
with the configured IntakeQ key (the bearer-token gate and the
key-configured check sit before this call). -/
def web_create_appointment (intakeq_api_key : PyVal) (data : Bag) :
    Except PyErr (Request × RespPolicy) :=
  AppointmentHandler.create_appointment base_url intakeq_api_key data

/-- The key list of a request body that is a JSON object; `[]` when no request
was issued or the body is absent or not an object. -/
def requestBodyKeys : Except PyErr (Request × RespPolicy) → List String
  | Except.ok (req, _) =>
      match req.body with
      | some (PyVal.obj kvs) => kvs.map Prod.fst
      | _ => []
  | Except.error _ => []

/-- Looks a key up in a JSON-object request body. -/
def requestBodyLookup (r : Except PyErr (Request × RespPolicy)) (k : String) :
    Option PyVal :=
  match r with
  | Except.ok (req, _) =>
      match req.body with
      | some (PyVal.obj kvs) => List.lookup k kvs
      | _ => Option.none
  | Except.error _ => Option.none

/-- Association-list lookup skips an entry under a different key. -/
theorem lookup_cons_ne {β : Type} (j k : String) (v : β)
    (t : List (String × β)) (h : ¬ j = k) :
    List.lookup j ((k, v) :: t) = List.lookup j t := by
  rw [List.lookup_cons]
  simp [beq_eq_false_iff_ne.mpr h]

/-- Association-list lookup finds the entry at its own key. -/
theorem lookup_cons_self {β : Type} (j : String) (v : β)
    (t : List (String × β)) :
    List.lookup j ((j, v) :: t) = some v := by
  rw [List.lookup_cons]
  simp

/-- Association-list lookup over an append: the left list wins. -/
theorem lookup_append_cases {β : Type} (j : String) (p q : List (String × β)) :
    List.lookup j (p ++ q)
      = match List.lookup j p with
        | some v => some v
        | Option.none => List.lookup j q := by
  induction p with
  | nil => simp
  | cons a t ih =>
      obtain ⟨k, v⟩ := a
      by_cases h : j = k
      · subst h
        rw [List.cons_append, lookup_cons_self, lookup_cons_self]
      · rw [List.cons_append, lookup_cons_ne _ _ _ _ h, lookup_cons_ne _ _ _ _ h,
            ih]

/-- `d.get(j)` is unchanged by appending an entry under a different key. -/
theorem bagGetd_append_ne (p : Bag) (j k : String) (v : PyVal) (h : ¬ j = k) :
    bagGetd (p ++ [(k, v)]) j = bagGetd p j := by
  unfold bagGetd
  rw [lookup_append_cases]
  cases hp : List.lookup j p with
  | some w => rfl
  | none => rw [lookup_cons_ne _ _ _ _ h]; rfl

/-- Key membership survives appending entries on the right. -/
theorem bagHas_append_left (p e : Bag) (j : String) (h : bagHas p j = true) :
    bagHas (p ++ e) j = true := by
  unfold bagHas at h ⊢
  rw [lookup_append_cases]
  cases hp : List.lookup j p with
  | some w => rfl
  | none => rw [hp] at h; simp at h

/-- A key whose bag value is absent or falsy is never written by a
query-building chain. -/
theorem lookup_buildQuery_absent (p : Bag) (k : String) (l : List QSpec)
    (h : (bagGetd p k).truthy = false) :
    List.lookup k (buildQuery p l) = Option.none := by
  induction l with
  | nil => rfl
  | cons s t ih =>
      cases s with
      | plain k2 =>
          unfold buildQuery
          by_cases he : k2 = k
          · subst he
            rw [if_neg (by simp [h]), List.nil_append]
            exact ih
          · by_cases hc : (bagGetd p k2).truthy = true
            · rw [if_pos hc, List.singleton_append,
                  lookup_cons_ne _ _ _ _ (fun hh => he hh.symm)]
              exact ih
            · rw [if_neg hc, List.nil_append]; exact ih
      | lowered k2 =>
          unfold buildQuery
          by_cases he : k2 = k
          · subst he
            rw [if_neg (by simp [h]), List.nil_append]
            exact ih
          · by_cases hc : (bagGetd p k2).truthy = true
            · rw [if_pos hc, List.singleton_append,
                  lookup_cons_ne _ _ _ _ (fun hh => he hh.symm)]
              exact ih
            · rw [if_neg hc, List.nil_append]; exact ih

/-- A key that occurs in a chain only in lowered form maps, when forwarded at
all, to the lowercased stringification of its bag value. -/
theorem lookup_buildQuery_lowered (p : Bag) (k : String) (l : List QSpec)
    (hpl : QSpec.plain k ∉ l) :
    List.lookup k (buildQuery p l) = Option.none
  ∨ List.lookup k (buildQuery p l)
      = some (PyVal.str (strLower (pyStr (bagGetd p k)))) := by
  induction l with
  | nil => exact Or.inl rfl
  | cons s t ih =>
      have hpt : QSpec.plain k ∉ t := fun hm => hpl (List.mem_cons_of_mem s hm)
      cases s with
      | plain k2 =>
          have he : ¬ k2 = k := by
            intro hk
            exact hpl (by rw [hk]; exact List.mem_cons_self _ _)
          unfold buildQuery
          by_cases hc : (bagGetd p k2).truthy = true
          · rw [if_pos hc, List.singleton_append,
                lookup_cons_ne _ _ _ _ (fun hh => he hh.symm)]
            exact ih hpt
          · rw [if_neg hc, List.nil_append]; exact ih hpt
      | lowered k2 =>
          by_cases he : k2 = k
          · subst he
            unfold buildQuery
            by_cases hc : (bagGetd p k2).truthy = true
            · rw [if_pos hc, List.singleton_append, lookup_cons_self]
              exact Or.inr rfl
            · rw [if_neg hc, List.nil_append]; exact ih hpt
          · unfold buildQuery
            by_cases hc : (bagGetd p k2).truthy = true
            · rw [if_pos hc, List.singleton_append,
                  lookup_cons_ne _ _ _ _ (fun hh => he hh.symm)]
              exact ih hpt
            · rw [if_neg hc, List.nil_append]; exact ih hpt

/-- Every key a query-building chain writes is one of the chain's own
parameter names. -/
theorem mem_specKeys_of_mem_buildQuery (p : Bag) (l : List QSpec) (j : String)
    (h : j ∈ (buildQuery p l).map Prod.fst) : j ∈ specKeys l := by
  induction l with
  | nil => simp [buildQuery] at h
  | cons s t ih =>
      have hstep : j = specKey s ∨ j ∈ (buildQuery p t).map Prod.fst := by
        cases s with
        | plain k2 =>
            unfold buildQuery at h
            by_cases hc : (bagGetd p k2).truthy = true
            · rw [if_pos hc, List.singleton_append, List.map_cons] at h
              rcases List.mem_cons.mp h with h1 | h2
              · exact Or.inl h1
              · exact Or.inr h2
            · rw [if_neg hc, List.nil_append] at h
              exact Or.inr h
        | lowered k2 =>
            unfold buildQuery at h
            by_cases hc : (bagGetd p k2).truthy = true
            · rw [if_pos hc, List.singleton_append, List.map_cons] at h
              rcases List.mem_cons.mp h with h1 | h2
              · exact Or.inl h1
              · exact Or.inr h2
            · rw [if_neg hc, List.nil_append] at h
              exact Or.inr h
      rcases hstep with h1 | h2
      · exact List.mem_cons.mpr (Or.inl h1)
      · exact List.mem_cons_of_mem _ (ih h2)

/-- A plain-forwarded key with a truthy bag value appears in the built query
with exactly its bag value. -/
theorem mem_buildQuery_plain (p : Bag) (k : String) (l : List QSpec)
    (hmem : QSpec.plain k ∈ l) (ht : (bagGetd p k).truthy = true) :
    (k, bagGetd p k) ∈ buildQuery p l := by
  induction l with
  | nil => simp at hmem
  | cons s t ih =>
      rcases List.mem_cons.mp hmem with hs | hs
      · rw [← hs]
        unfold buildQuery
        rw [if_pos ht, List.singleton_append]
        exact List.mem_cons_self _ _
      · cases s with
        | plain k2 =>
            unfold buildQuery
            exact List.mem_append.mpr (Or.inr (ih hs))
        | lowered k2 =>
            unfold buildQuery
            exact List.mem_append.mpr (Or.inr (ih hs))

/-- A lowered-forwarded key with a truthy bag value appears in the built
query with the lowercased stringification of its bag value. -/
theorem mem_buildQuery_lowered (p : Bag) (k : String) (l : List QSpec)
    (hmem : QSpec.lowered k ∈ l) (ht : (bagGetd p k).truthy = true) :
    (k, PyVal.str (strLower (pyStr (bagGetd p k)))) ∈ buildQuery p l := by
  induction l with
  | nil => simp at hmem
  | cons s t ih =>
      rcases List.mem_cons.mp hmem with hs | hs
      · rw [← hs]
        unfold buildQuery
        rw [if_pos ht, List.singleton_append]
        exact List.mem_cons_self _ _
      · cases s with
        | plain k2 =>
            unfold buildQuery
            exact List.mem_append.mpr (Or.inr (ih hs))
        | lowered k2 =>
            unfold buildQuery
            exact List.mem_append.mpr (Or.inr (ih hs))

/-- Appending an entry under a key the chain does not recognize leaves the
built query unchanged. -/
theorem buildQuery_append_unrecognized (p : Bag) (l : List QSpec) (k : String)
    (v : PyVal) (h : k ∉ specKeys l) :
    buildQuery (p ++ [(k, v)]) l = buildQuery p l := by
  induction l with
  | nil => rfl
  | cons s t ih =>
      have hkt : k ∉ specKeys t := by
        intro hm
        exact h (List.mem_cons_of_mem _ hm)
      have hks : ¬ specKey s = k := by
        intro he
        exact h (by rw [← he]; exact List.mem_cons_self _ _)
      cases s with
      | plain k2 =>
          unfold buildQuery
          rw [bagGetd_append_ne p k2 k v hks, ih hkt]
      | lowered k2 =>
          unfold buildQuery
          rw [bagGetd_append_ne p k2 k v hks, ih hkt]

/-- C5: for every operation name, known or unknown, dispatching with an
absent or empty credential fails with the missing-credential error before the
handler is resolved; the `Except.error` outcome is raised before any
`Request` is built, so no network call is attempted. -/
theorem c5_missing_credential (tool_name : String) (args : Bag)
    (h : (bagGetd args "api_key").truthy = false) :
    route_tool_call tool_name args
      = Except.error (PyErr.valueError "API key is required") := by
  unfold route_tool_call
  simp [h]

/-- Witness for C5 at a concrete input: an empty argument bag has no
credential. -/
theorem c5_missing_credential_witness :
    (bagGetd [] "api_key").truthy = false
  ∧ route_tool_call "get_appointments" []
      = Except.error (PyErr.valueError "API key is required") :=
  ⟨rfl, c5_missing_credential "get_appointments" [] rfl⟩

/-- C6: dispatching an operation name outside the static if/elif table, with
a credential present, fails with the unknown-tool error naming the operation;
the `Except.error` outcome means zero network calls are issued. -/
theorem c6_unknown_operation (tool_name : String) (args : Bag)
    (hkey : (bagGetd args "api_key").truthy = true)
    (h : tool_name ∉ knownTools) :
    route_tool_call tool_name args
      = Except.error (PyErr.valueError ("Unknown tool: " ++ tool_name)) := by
  simp only [knownTools, List.mem_cons, List.not_mem_nil, or_false,
    not_or] at h
  obtain ⟨h1, h2, h3, h4, h5, h6, h7, h8, h9, h10, h11, h12⟩ := h
  unfold route_tool_call
  simp [hkey, h1, h2, h3, h4, h5, h6, h7, h8, h9, h10, h11, h12]

/-- Witness for C6 at a concrete input. -/
theorem c6_unknown_operation_witness :
    (bagGetd [("api_key", PyVal.str "k")] "api_key").truthy = true
  ∧ "frobnicate" ∉ knownTools
  ∧ route_tool_call "frobnicate" [("api_key", PyVal.str "k")]
      = Except.error (PyErr.valueError ("Unknown tool: " ++ "frobnicate")) :=
  ⟨rfl, by decide,
   c6_unknown_operation "frobnicate" [("api_key", PyVal.str "k")] rfl
     (by decide)⟩

/-- C7: for every operation, an upstream response whose status is not 200 —
and, for the response handler of appointment create (the only one whose code
accepts 201), also not 201 — is surfaced as the API-error exception carrying
the original status code and body text; in particular a 201 to any
non-create operation errors too. The dispatcher propagates the error
unchanged, and the tool reply embeds the same status and body verbatim in
its error text. -/
theorem c7_upstream_error (pol : RespPolicy) (resp : Response)
    (h200 : resp.status ≠ 200)
    (h201 : pol = RespPolicy.json200or201 → resp.status ≠ 201)
    (name : String) (args : Bag) (req : Request)
    (hroute : route_tool_call name args = Except.ok (req, pol)) :
    processResponse pol resp
      = Except.error (PyErr.apiError resp.status resp.textBody)
  ∧ dispatch_and_respond name args resp
      = Except.error (PyErr.apiError resp.status resp.textBody)
  ∧ handle_call_tool name args resp
      = ToolReply.failure ("Error calling tool " ++ name ++ ": "
          ++ ("API Error: " ++ toString resp.status ++ " - "
              ++ resp.textBody)) := by
  have b200 : (resp.status == 200) = false := by
    simp [h200]
  have hp : processResponse pol resp
      = Except.error (PyErr.apiError resp.status resp.textBody) := by
    cases pol with
    | json200 => simp [processResponse, b200]
    | json200or201 =>
        have b201 : (resp.status == 201) = false := by
          simp [h201 rfl]
        simp [processResponse, b200, b201]
    | bytes200 => simp [processResponse, b200]
    | synth200 v => simp [processResponse, b200]
  have hd : dispatch_and_respond name args resp
      = Except.error (PyErr.apiError resp.status resp.textBody) := by
    unfold dispatch_and_respond runCall
    rw [hroute]
    exact hp
  refine ⟨hp, hd, ?_⟩
  unfold handle_call_tool
  rw [hd]
  rfl

/-- The 404 response of the C7 witness, matching scenario E of the spec. -/
def c7_response : Response :=
  { status := 404, jsonBody := PyVal.none, textBody := "not found",
    rawBody := [] }

/-- A 201 response, used to witness that a non-create operation errors even
on 201. -/
def c7_response_201 : Response :=
  { status := 201, jsonBody := PyVal.none, textBody := "created",
    rawBody := [] }

/-- The request the C7 witness operation issues. -/
def c7_request : Request :=
  { method := Method.get,
    url := "https://intakeq.com/api/v1/appointments/123",
    headers := [("X-Auth-Key", PyVal.str "k")], query := [],
    body := Option.none }

/-- Witness for C7 at concrete inputs: a 404 with body text surfaces as the
API error carrying 404 and that text, and a 201 to the non-create
get-appointment operation is also surfaced as the API error. -/
theorem c7_upstream_error_witness :
    c7_response.status ≠ 200
  ∧ c7_response_201.status ≠ 200
  ∧ route_tool_call "get_appointment"
        [("api_key", PyVal.str "k"), ("appointment_id", PyVal.str "123")]
      = Except.ok (c7_request, RespPolicy.json200)
  ∧ processResponse RespPolicy.json200 c7_response
      = Except.error (PyErr.apiError 404 "not found")
  ∧ processResponse RespPolicy.json200 c7_response_201
      = Except.error (PyErr.apiError 201 "created") :=
  ⟨by decide, by decide, rfl,
   (c7_upstream_error RespPolicy.json200 c7_response (by decide)
     (fun h => nomatch h) "get_appointment"
     [("api_key", PyVal.str "k"), ("appointment_id", PyVal.str "123")]
     c7_request (by rfl)).1,
   (c7_upstream_error RespPolicy.json200 c7_response_201 (by decide)
     (fun h => nomatch h) "get_appointment"
     [("api_key", PyVal.str "k"), ("appointment_id", PyVal.str "123")]
     c7_request (by rfl)).1⟩

/-- C1 counterexample, two failing inputs. First, dispatching the send
questionnaire operation with only the required questionnaire_id supplied
sends a JSON body in which the unsupplied optional keys ClientId,
ClientName, ClientEmail and PractitionerId are all present, carrying the
Python value None (JSON null) — contradicting the claim that unsupplied
optional keys do not appear in the body. Second, the appointments list
operation given deletedOnly with the concrete value TRUE forwards the query
value true — str(...).lower() of the supplied value — contradicting the
claim that a supplied concrete optional value appears exactly as
supplied. -/
theorem c1_counterexample :
    requestBodyKeys (route_tool_call "send_questionnaire"
        [("api_key", PyVal.str "k"), ("questionnaire_id", PyVal.str "q")])
      = ["QuestionnaireId", "ClientId", "ClientName", "ClientEmail",
         "PractitionerId"]
  ∧ requestBodyLookup (route_tool_call "send_questionnaire"
        [("api_key", PyVal.str "k"), ("questionnaire_id", PyVal.str "q")])
        "ClientId"
      = some PyVal.none
  ∧ List.lookup "deletedOnly"
        (buildQuery [("deletedOnly", PyVal.str "TRUE")] appointmentsSpec)
      = some (PyVal.str "true")
  ∧ PyVal.str "true" ≠ PyVal.str "TRUE" :=
  ⟨rfl, rfl, rfl, by simp⟩

/-- Appointment-create data with every required KEY present but
PractitionerId bound to None. -/
def c2_appointment_data : Bag :=
  [("PractitionerId", PyVal.none), ("ClientId", PyVal.int 5),
   ("ServiceId", PyVal.str "s1"), ("LocationId", PyVal.str "l1"),
   ("Status", PyVal.str "Confirmed"), ("UtcDateTime", PyVal.int 1700000000)]

/-- C2 counterexample: a required argument present with value None passes the
key-membership validation of appointment create, and the request is built and
sent (with the null inside the body) — contradicting the claim that a
present-but-None required argument fails with a missing-argument error before
any network call. -/
theorem c2_counterexample :
    AppointmentHandler.create_appointment base_url (PyVal.str "key")
        c2_appointment_data
      = Except.ok
          ({ method := Method.post,
             url := "https://intakeq.com/api/v1/appointments",
             headers := [("X-Auth-Key", PyVal.str "key"),
                         ("Content-Type", PyVal.str "application/json")],
             query := [], body := some (PyVal.obj c2_appointment_data) },
           RespPolicy.json200or201) :=
  rfl

/-- A 200 upstream response whose payload is a distinctive JSON value. -/
def c3_response : Response :=
  { status := 200, jsonBody := PyVal.str "upstream payload",
    textBody := "upstream payload", rawBody := [] }

/-- C3 counterexample: on a 200 response the addTag operation returns the
fixed synthesized success object, which differs from the upstream payload —
contradicting the claim that no operation replaces the upstream 200 payload
with a synthesized value. -/
theorem c3_counterexample :
    runCall (ClientHandler.add_client_tag base_url (PyVal.str "k")
        (PyVal.int 7) (PyVal.str "vip")) c3_response
      = Except.ok (HVal.json
          (PyVal.obj [("success", PyVal.bool true),
                      ("message", PyVal.str "Tag added successfully")]))
  ∧ HVal.json (PyVal.obj [("success", PyVal.bool true),
        ("message", PyVal.str "Tag added successfully")])
      ≠ HVal.json c3_response.jsonBody :=
  ⟨rfl, by simp [c3_response]⟩

/-- C4 counterexample: a 201 upstream response to client createOrUpdate is
surfaced as the API error, not decoded as success — contradicting the claim
that every create operation treats 201 as success. -/
theorem c4_counterexample :
    runCall (ClientHandler.create_or_update_client base_url (PyVal.str "k")
        (PyVal.obj [("Name", PyVal.str "Jane")]))
        { status := 201, jsonBody := PyVal.obj [("Id", PyVal.int 1)],
          textBody := "created", rawBody := [] }
      = Except.error (PyErr.apiError 201 "created") :=
  rfl

/-- Appointment-create data with every required key present and concrete. -/
def c8_appointment_data : Bag :=
  [("PractitionerId", PyVal.str "p1"), ("ClientId", PyVal.int 5),
   ("ServiceId", PyVal.str "s1"), ("LocationId", PyVal.str "l1"),
   ("Status", PyVal.str "Confirmed"), ("UtcDateTime", PyVal.int 1700000000)]

/-- C8 counterexample: adding an argument with an unrecognized name to the
bag of the HTTP create-appointment route changes the outgoing request — the
extra key is forwarded in the JSON body — contradicting the claim that
unrecognized argument names leave the outgoing request unchanged. -/
theorem c8_counterexample :
    requestBodyKeys (web_create_appointment (PyVal.str "k")
        (c8_appointment_data ++ [("UnrecognizedKey", PyVal.str "x")]))
      = ["PractitionerId", "ClientId", "ServiceId", "LocationId", "Status",
         "UtcDateTime", "UnrecognizedKey"]
  ∧ requestBodyKeys (web_create_appointment (PyVal.str "k")
        c8_appointment_data)
      = ["PractitionerId", "ClientId", "ServiceId", "LocationId", "Status",
         "UtcDateTime"] :=
  ⟨rfl, rfl⟩

/-- C1 (amended): for every query-building chain — in particular the five
list operations — an optional argument whose value is absent or empty
(falsy) is never present in the outgoing query string, and an optional
argument supplied with a concrete (non-falsy) value always appears in the
query under its key: plain parameters exactly as supplied, while the
lowercase-coerced flag parameters appear as the lowercased stringification
of the supplied value rather than exactly as supplied; and for the send
questionnaire operation dispatched through the tool router, the optional
keys ClientId, ClientName, ClientEmail and PractitionerId always appear in
the outgoing JSON body, carrying the Python value None (JSON null) when the
corresponding argument was not supplied. -/
theorem c1_amended (params : Bag) (args : Bag) (qid : PyVal)
    (hkey : (bagGetd args "api_key").truthy = true)
    (hqid : List.lookup "questionnaire_id" args = some qid) :
    (∀ (spec : List QSpec) (k : String),
        (bagGetd params k).truthy = false →
        List.lookup k (buildQuery params spec) = Option.none)
  ∧ (∀ (spec : List QSpec) (k : String), QSpec.plain k ∈ spec →
        (bagGetd params k).truthy = true →
        (k, bagGetd params k) ∈ buildQuery params spec)
  ∧ (∀ (spec : List QSpec) (k : String), QSpec.lowered k ∈ spec →
        (bagGetd params k).truthy = true →
        (k, PyVal.str (strLower (pyStr (bagGetd params k))))
          ∈ buildQuery params spec)
  ∧ requestBodyKeys (route_tool_call "send_questionnaire" args)
      = ["QuestionnaireId", "ClientId", "ClientName", "ClientEmail",
         "PractitionerId"]
  ∧ requestBodyLookup (route_tool_call "send_questionnaire" args) "ClientId"
      = some (bagGetd args "client_id") := by
  refine ⟨fun spec k habs => lookup_buildQuery_absent params k spec habs,
    fun spec k hm ht => mem_buildQuery_plain params k spec hm ht,
    fun spec k hm ht => mem_buildQuery_lowered params k spec hm ht,
    ?_, ?_⟩
  all_goals
    simp [route_tool_call, hkey, bagIndex, hqid,
      QuestionnaireHandler.send_questionnaire, bagHas, requestBodyKeys,
      requestBodyLookup, List.lookup, Bind.bind, Except.bind]

/-- The appointments-list argument bag of the C1 witness. -/
def c1_list_params : Bag :=
  [("client", PyVal.str "Jane Doe"), ("deletedOnly", PyVal.str "TRUE")]

/-- The send-questionnaire argument bag of the C1 witness. -/
def c1_send_args : Bag :=
  [("api_key", PyVal.str "k"), ("questionnaire_id", PyVal.str "q")]

/-- Witness for C1 (amended) at concrete inputs: an absent startDate does
not appear in the query, the supplied client value appears exactly, the
supplied deletedOnly value TRUE appears lowercased, and the unsupplied
client_id reaches the send body as None. -/
theorem c1_amended_witness :
    (bagGetd c1_send_args "api_key").truthy = true
  ∧ List.lookup "questionnaire_id" c1_send_args = some (PyVal.str "q")
  ∧ (bagGetd c1_list_params "startDate").truthy = false
  ∧ List.lookup "startDate" (buildQuery c1_list_params appointmentsSpec)
      = Option.none
  ∧ ("client", PyVal.str "Jane Doe")
      ∈ buildQuery c1_list_params appointmentsSpec
  ∧ ("deletedOnly", PyVal.str "true")
      ∈ buildQuery c1_list_params appointmentsSpec
  ∧ requestBodyLookup (route_tool_call "send_questionnaire" c1_send_args)
        "ClientId"
      = some PyVal.none :=
  ⟨rfl, rfl, rfl,
   (c1_amended c1_list_params c1_send_args (PyVal.str "q") rfl rfl).1
     appointmentsSpec "startDate" rfl,
   (c1_amended c1_list_params c1_send_args (PyVal.str "q") rfl rfl).2.1
     appointmentsSpec "client" (by decide) rfl,
   (c1_amended c1_list_params c1_send_args (PyVal.str "q") rfl rfl).2.2.1
     appointmentsSpec "deletedOnly" (by decide) rfl,
   (c1_amended c1_list_params c1_send_args (PyVal.str "q") rfl
     rfl).2.2.2.2⟩

/-- C2 (amended): a required argument whose KEY is missing from the argument
bag makes the operation fail, before any network call, with an error naming a
missing field — appointment create names the first missing field of its
required list, appointment update names both Id and UtcDateTime whichever is
missing, and questionnaire send names QuestionnaireId; a required key present
with a None value passes this validation (see the counterexample). -/
theorem c2_amended (bu : String) (ak : PyVal) :
    (∀ (d : Bag) (f : String),
        AppointmentHandler.required_fields.find?
            (fun g => !(bagHas d g)) = some f →
          AppointmentHandler.create_appointment bu ak d
            = Except.error
                (PyErr.valueError ("Missing required field: " ++ f)))
  ∧ (∀ d : Bag,
        bagHas d "Id" = false ∨ bagHas d "UtcDateTime" = false →
          AppointmentHandler.update_appointment bu ak d
            = Except.error (PyErr.valueError
                "Missing required fields: Id and UtcDateTime"))
  ∧ (∀ d : Bag, bagHas d "QuestionnaireId" = false →
        QuestionnaireHandler.send_questionnaire bu ak d
          = Except.error (PyErr.valueError
              "Missing required field: QuestionnaireId")) := by
  refine ⟨?_, ?_, ?_⟩
  · intro d f h
    unfold AppointmentHandler.create_appointment
    rw [h]
  · intro d h
    unfold AppointmentHandler.update_appointment
    rcases h with h | h <;> simp [h]
  · intro d h
    unfold QuestionnaireHandler.send_questionnaire
    simp [h]

/-- Witness for C2 (amended) at a concrete input: create data missing
ServiceId fails naming ServiceId, matching scenario B of the spec. -/
theorem c2_amended_witness :
    AppointmentHandler.required_fields.find?
        (fun g => !(bagHas
          [("PractitionerId", PyVal.str "p"), ("ClientId", PyVal.int 1)] g))
      = some "ServiceId"
  ∧ AppointmentHandler.create_appointment base_url (PyVal.str "key")
        [("PractitionerId", PyVal.str "p"), ("ClientId", PyVal.int 1)]
      = Except.error
          (PyErr.valueError ("Missing required field: " ++ "ServiceId")) :=
  ⟨rfl,
   (c2_amended base_url (PyVal.str "key")).1
     [("PractitionerId", PyVal.str "p"), ("ClientId", PyVal.int 1)]
     "ServiceId" rfl⟩

/-- C3 (amended): on upstream success the dispatcher passes the handler
result through unchanged, and ordinary operations return the decoded
upstream payload; but the addTag, removeTag and cancel-appointment handlers
return a fixed synthesized success object on 200 rather than the upstream
payload. -/
theorem c3_amended (resp : Response) (h : resp.status = 200)
    (name : String) (args : Bag) (req : Request) (pol : RespPolicy)
    (hroute : route_tool_call name args = Except.ok (req, pol))
    (bu : String) (ak cid tag aid reason : PyVal) :
    dispatch_and_respond name args resp = processResponse pol resp
  ∧ runCall (AppointmentHandler.get_appointment bu ak aid) resp
      = Except.ok (HVal.json resp.jsonBody)
  ∧ runCall (ClientHandler.add_client_tag bu ak cid tag) resp
      = Except.ok (HVal.json (PyVal.obj [("success", PyVal.bool true),
          ("message", PyVal.str "Tag added successfully")]))
  ∧ runCall (ClientHandler.remove_client_tag bu ak cid tag) resp
      = Except.ok (HVal.json (PyVal.obj [("success", PyVal.bool true),
          ("message", PyVal.str "Tag removed successfully")]))
  ∧ runCall (AppointmentHandler.cancel_appointment bu ak aid reason) resp
      = Except.ok (HVal.json (PyVal.obj [("success", PyVal.bool true),
          ("message", PyVal.str "Appointment canceled successfully")])) := by
  have b200 : (resp.status == 200) = true := by
    simp [h]
  refine ⟨?_, ?_, ?_, ?_, ?_⟩
  · unfold dispatch_and_respond runCall
    rw [hroute]
  · simp [AppointmentHandler.get_appointment, runCall, processResponse, b200]
  · simp [ClientHandler.add_client_tag, runCall, processResponse, b200]
  · simp [ClientHandler.remove_client_tag, runCall, processResponse, b200]
  · simp [AppointmentHandler.cancel_appointment, runCall, processResponse,
      b200]

/-- Witness for C3 (amended) at a concrete input: on a 200 response the
addTag handler returns the fixed synthesized object. -/
theorem c3_amended_witness :
    c3_response.status = 200
  ∧ route_tool_call "get_booking_settings" [("api_key", PyVal.str "k")]
      = Except.ok
          ({ method := Method.get,
             url := "https://intakeq.com/api/v1/appointments/settings",
             headers := [("X-Auth-Key", PyVal.str "k")], query := [],
             body := Option.none }, RespPolicy.json200)
  ∧ runCall (ClientHandler.add_client_tag base_url (PyVal.str "k")
        (PyVal.int 7) (PyVal.str "vip")) c3_response
      = Except.ok (HVal.json (PyVal.obj [("success", PyVal.bool true),
          ("message", PyVal.str "Tag added successfully")])) :=
  ⟨rfl, rfl,
   (c3_amended c3_response rfl "get_booking_settings"
     [("api_key", PyVal.str "k")]
     { method := Method.get,
       url := "https://intakeq.com/api/v1/appointments/settings",
       headers := [("X-Auth-Key", PyVal.str "k")], query := [],
       body := Option.none } RespPolicy.json200 rfl base_url
     (PyVal.str "k") (PyVal.int 7) (PyVal.str "vip") (PyVal.str "a1")
     PyVal.none).2.2.1⟩

/-- C4 (amended): an upstream 201 is treated as success, with the body
decoded as JSON exactly as for a 200, by the appointment create operation;
the client createOrUpdate operation accepts only 200 and surfaces a 201
response as the API error carrying status 201 and the body text. -/
theorem c4_amended (resp : Response) (h : resp.status = 201)
    (bu : String) (ak cd : PyVal) (d : Bag)
    (hd : AppointmentHandler.required_fields.find?
        (fun g => !(bagHas d g)) = Option.none) :
    runCall (AppointmentHandler.create_appointment bu ak d) resp
      = Except.ok (HVal.json resp.jsonBody)
  ∧ runCall (ClientHandler.create_or_update_client bu ak cd) resp
      = Except.error (PyErr.apiError 201 resp.textBody) := by
  have b200 : (resp.status == 200) = false := by
    simp [h]
  have b201 : (resp.status == 201) = true := by
    simp [h]
  constructor
  · simp [AppointmentHandler.create_appointment, hd, runCall,
      processResponse, b200, b201]
  · simp [ClientHandler.create_or_update_client, runCall, processResponse,
      b200, h]

/-- Witness for C4 (amended) at a concrete input. -/
theorem c4_amended_witness :
    AppointmentHandler.required_fields.find?
        (fun g => !(bagHas c8_appointment_data g)) = Option.none
  ∧ runCall (AppointmentHandler.create_appointment base_url
        (PyVal.str "k") c8_appointment_data)
        { status := 201, jsonBody := PyVal.obj [("Id", PyVal.int 1)],
          textBody := "created", rawBody := [] }
      = Except.ok (HVal.json (PyVal.obj [("Id", PyVal.int 1)])) :=
  ⟨rfl,
   (c4_amended
     { status := 201, jsonBody := PyVal.obj [("Id", PyVal.int 1)],
       textBody := "created", rawBody := [] }
     rfl base_url (PyVal.str "k") (PyVal.obj [("Name", PyVal.str "Jane")])
     c8_appointment_data rfl).1⟩

/-- C8 (amended): for the appointments list operation an unrecognized
argument name has no effect on the outgoing request; but a body-bearing
operation that forwards the argument bag verbatim — the HTTP
create-appointment route — includes the unrecognized key in the outgoing
JSON body. -/
theorem c8_amended (bu : String) (ak : PyVal) (params d : Bag) (k : String)
    (v : PyVal)
    (hk : k ∉ specKeys appointmentsSpec)
    (hd : ∀ f ∈ AppointmentHandler.required_fields, bagHas d f = true) :
    AppointmentHandler.get_appointments bu ak (params ++ [(k, v)])
      = AppointmentHandler.get_appointments bu ak params
  ∧ web_create_appointment ak (d ++ [(k, v)])
      = Except.ok
          ({ method := Method.post, url := base_url ++ "/appointments",
             headers := [("X-Auth-Key", ak),
                         ("Content-Type", PyVal.str "application/json")],
             query := [], body := some (PyVal.obj (d ++ [(k, v)])) },
           RespPolicy.json200or201)
  ∧ k ∈ requestBodyKeys (web_create_appointment ak (d ++ [(k, v)])) := by
  have hfind : AppointmentHandler.required_fields.find?
      (fun g => !(bagHas (d ++ [(k, v)]) g)) = Option.none := by
    rw [List.find?_eq_none]
    intro g hg
    simp [bagHas_append_left d _ g (hd g hg)]
  have hcreate : web_create_appointment ak (d ++ [(k, v)])
      = Except.ok
          ({ method := Method.post, url := base_url ++ "/appointments",
             headers := [("X-Auth-Key", ak),
                         ("Content-Type", PyVal.str "application/json")],
             query := [], body := some (PyVal.obj (d ++ [(k, v)])) },
           RespPolicy.json200or201) := by
    simp [web_create_appointment, AppointmentHandler.create_appointment,
      hfind]
  refine ⟨?_, hcreate, ?_⟩
  · unfold AppointmentHandler.get_appointments
    rw [buildQuery_append_unrecognized params appointmentsSpec k v hk]
  · rw [hcreate]
    simp [requestBodyKeys]

/-- Witness for C8 (amended) at concrete inputs. -/
theorem c8_amended_witness :
    "UnrecognizedKey" ∉ specKeys appointmentsSpec
  ∧ (∀ f ∈ AppointmentHandler.required_fields,
        bagHas c8_appointment_data f = true)
  ∧ "UnrecognizedKey" ∈ requestBodyKeys (web_create_appointment
        (PyVal.str "k")
        (c8_appointment_data ++ [("UnrecognizedKey", PyVal.str "x")])) :=
  ⟨by decide, by decide,
   (c8_amended base_url (PyVal.str "k") [("client", PyVal.str "Jane")]
     c8_appointment_data "UnrecognizedKey" (PyVal.str "x") (by decide)
     (by decide)).2.2⟩

/-- C9: a boolean-typed optional query flag (deletedOnly on appointments,
includeProfile on clients, all on intake summaries) that is forwarded to
upstream is serialized in the query as exactly the lowercase string true or
false, never a capitalized form or a numeral. -/
theorem c9_bool_serialization (params : Bag) (b : Bool) (v : PyVal) :
    (bagGetd params "deletedOnly" = PyVal.bool b →
       List.lookup "deletedOnly" (buildQuery params appointmentsSpec)
         = some v →
       v = PyVal.str "true" ∨ v = PyVal.str "false")
  ∧ (bagGetd params "includeProfile" = PyVal.bool b →
       List.lookup "includeProfile" (buildQuery params clientsSpec)
         = some v →
       v = PyVal.str "true" ∨ v = PyVal.str "false")
  ∧ (bagGetd params "all" = PyVal.bool b →
       List.lookup "all" (buildQuery params intakesSpec) = some v →
       v = PyVal.str "true" ∨ v = PyVal.str "false") := by
  have main : ∀ (key : String) (spec : List QSpec),
      QSpec.plain key ∉ spec →
      bagGetd params key = PyVal.bool b →
      List.lookup key (buildQuery params spec) = some v →
      v = PyVal.str "true" ∨ v = PyVal.str "false" := by
    intro key spec hpl hget hlook
    rcases lookup_buildQuery_lowered params key spec hpl with hn | hs
    · rw [hn] at hlook
      exact absurd hlook (by simp)
    · rw [hs] at hlook
      have hv : v = PyVal.str (strLower (pyStr (bagGetd params key))) :=
        (Option.some.inj hlook).symm
      rw [hget] at hv
      cases b
      · exact Or.inr
          (by rw [hv]; exact congrArg PyVal.str (by decide))
      · exact Or.inl
          (by rw [hv]; exact congrArg PyVal.str (by decide))
  exact ⟨main "deletedOnly" appointmentsSpec (by decide),
         main "includeProfile" clientsSpec (by decide),
         main "all" intakesSpec (by decide)⟩

/-- Witness for C9 at a concrete input: a boolean True deletedOnly is
forwarded as the string true. -/
theorem c9_bool_serialization_witness :
    bagGetd [("deletedOnly", PyVal.bool true)] "deletedOnly"
      = PyVal.bool true
  ∧ List.lookup "deletedOnly"
        (buildQuery [("deletedOnly", PyVal.bool true)] appointmentsSpec)
      = some (PyVal.str "true")
  ∧ (PyVal.str "true" = PyVal.str "true"
      ∨ PyVal.str "true" = PyVal.str "false") :=
  ⟨rfl, rfl,
   (c9_bool_serialization [("deletedOnly", PyVal.bool true)] true
     (PyVal.str "true")).1 rfl rfl⟩

/-- C10: although the dispatcher passes the whole argument bag — including
the api_key entry — to the list handlers, every key of the outgoing query is
one of the operation's recognized parameter names, api_key is never among
them, and the credential reaches upstream only in the X-Auth-Key header. -/
theorem c10_api_key_not_in_query (args : Bag) (req : Request)
    (pol : RespPolicy)
    (hkey : (bagGetd args "api_key").truthy = true) :
    (route_tool_call "get_appointments" args = Except.ok (req, pol) →
        (∀ j ∈ req.query.map Prod.fst, j ∈ specKeys appointmentsSpec)
      ∧ "api_key" ∉ req.query.map Prod.fst
      ∧ req.headers = [("X-Auth-Key", bagGetd args "api_key")])
  ∧ (route_tool_call "get_clients" args = Except.ok (req, pol) →
        (∀ j ∈ req.query.map Prod.fst, j ∈ specKeys clientsSpec)
      ∧ "api_key" ∉ req.query.map Prod.fst
      ∧ req.headers = [("X-Auth-Key", bagGetd args "api_key")]) := by
  constructor
  · intro hroute
    have hroute2 : Except.ok
        (({ method := Method.get, url := base_url ++ "/appointments",
            headers := [("X-Auth-Key", bagGetd args "api_key")],
            query := buildQuery args appointmentsSpec,
            body := Option.none } : Request), RespPolicy.json200)
        = (Except.ok (req, pol) : Except PyErr (Request × RespPolicy)) := by
      rw [← hroute]
      simp [route_tool_call, hkey, AppointmentHandler.get_appointments]
    have hp := Except.ok.inj hroute2
    have hreq : ({ method := Method.get,
                   url := base_url ++ "/appointments",
                   headers := [("X-Auth-Key", bagGetd args "api_key")],
                   query := buildQuery args appointmentsSpec,
                   body := Option.none } : Request) = req :=
      congrArg Prod.fst hp
    rw [← hreq]
    refine ⟨?_, ?_, rfl⟩
    · intro j hj
      exact mem_specKeys_of_mem_buildQuery args appointmentsSpec j hj
    · intro hc
      exact absurd
        (mem_specKeys_of_mem_buildQuery args appointmentsSpec _ hc)
        (by decide)
  · intro hroute
    have hroute2 : Except.ok
        (({ method := Method.get, url := base_url ++ "/clients",
            headers := [("X-Auth-Key", bagGetd args "api_key")],
            query := buildQuery args clientsSpec,
            body := Option.none } : Request), RespPolicy.json200)
        = (Except.ok (req, pol) : Except PyErr (Request × RespPolicy)) := by
      rw [← hroute]
      simp [route_tool_call, hkey, ClientHandler.get_clients]
    have hp := Except.ok.inj hroute2
    have hreq : ({ method := Method.get, url := base_url ++ "/clients",
                   headers := [("X-Auth-Key", bagGetd args "api_key")],
                   query := buildQuery args clientsSpec,
                   body := Option.none } : Request) = req :=
      congrArg Prod.fst hp
    rw [← hreq]
    refine ⟨?_, ?_, rfl⟩
    · intro j hj
      exact mem_specKeys_of_mem_buildQuery args clientsSpec j hj
    · intro hc
      exact absurd
        (mem_specKeys_of_mem_buildQuery args clientsSpec _ hc)
        (by decide)

/-- The argument bag of the C10 witness: the credential plus one filter. -/
def c10_args : Bag :=
  [("api_key", PyVal.str "secret"), ("client", PyVal.str "Jane")]

/-- The request the C10 witness dispatch issues. -/
def c10_req : Request :=
  { method := Method.get, url := "https://intakeq.com/api/v1/appointments",
    headers := [("X-Auth-Key", PyVal.str "secret")],
    query := [("client", PyVal.str "Jane")], body := Option.none }

/-- Witness for C10 at a concrete input. -/
theorem c10_api_key_not_in_query_witness :
    (bagGetd c10_args "api_key").truthy = true
  ∧ route_tool_call "get_appointments" c10_args
      = Except.ok (c10_req, RespPolicy.json200)
  ∧ "api_key" ∉ c10_req.query.map Prod.fst :=
  ⟨rfl, rfl,
   ((c10_api_key_not_in_query c10_args c10_req RespPolicy.json200 rfl).1
     rfl).2.1⟩

end IntakeQVerify
